import Mathlib

/-!
Verification of the kanidm transactional core (server.rs) and the
session-consistency plugin (plugins/session.rs) against their
natural-language specification.

The Rust source is shallowly embedded: entries are attribute maps, value
variants are a closed sum type, stateful transaction code becomes explicit
state passing, fallible code returns `Except`, and `unimplemented!()` /
`assert!` panics are a distinguished outcome.  Timestamps are `Nat`
(seconds since the Unix epoch), uuids are `Nat`.
-/

namespace Kanidm

/-- Identity reference (`IdentityId` in the source): who issued a session. -/
inductive IdentityId where
  | Internal
  | User (uuid : Nat)
deriving DecidableEq, Repr

/-- Access scope tag of a session (`AccessScope` in the source). -/
inductive AccessScope where
  | IdentityOnly
  | ReadOnly
  | ReadWrite
deriving DecidableEq, Repr

/-- The `Session` payload from value.rs: a top-level authentication
session.  `expiry` is an optional absolute timestamp; `issued_at` is an
absolute timestamp. -/
structure Session where
  label : String
  expiry : Option Nat
  issued_at : Nat
  issued_by : IdentityId
  scope : AccessScope
deriving DecidableEq, Repr

/-- The `Oauth2Session` payload from value.rs: a derived session whose
`parent` references a `Session` value's id on the same entry. -/
structure Oauth2Session where
  parent : Nat
  expiry : Option Nat
  issued_at : Nat
  rs_uuid : Nat
deriving DecidableEq, Repr

/-- The tagged value union (`Value` in value.rs), restricted to the
variants the core manipulates.  `Session`/`Oauth2Session` carry their id
(the value's identity within its attribute set) as the first component,
exactly as the Rust enum does. -/
inductive Value where
  | Session (id : Nat) (s : Session)
  | Oauth2Session (id : Nat) (o : Oauth2Session)
  | Utf8 (s : String)
  | Class (s : String)
  | Refer (uuid : Nat)
deriving DecidableEq, Repr

/-- An entry: a mapping from attribute name to a set of values
(entry.rs).  Attribute names are unique per entry; the value set is kept
as a list. -/
structure Entry where
  attrs : List (String × List Value)
deriving DecidableEq, Repr

/-- Look up the value set of one attribute; absent attributes have no
values. -/
def Entry.getAttr (e : Entry) (name : String) : List Value :=
  match e.attrs.lookup name with
  | some vs => vs
  | none => []

/-- Error kinds surfaced by the core (`OperationError` in error.rs, plus
the error kinds named in server.rs). -/
inductive OperationError where
  | EmptyRequest
  | Backend
  | SchemaViolation
  | FilterGeneration
  | Plugin
deriving DecidableEq, Repr

/-- Record-store error kind (`BackendError` in be.rs, matched on in
server.rs's create). -/
inductive BackendError where
  | EmptyRequest
deriving DecidableEq, Repr

/-- An operation outcome that distinguishes a Rust panic
(`unimplemented!()`, a failed `assert!`) from an ordinary returned
error. -/
inductive Failure where
  | err (e : OperationError)
  | panic
deriving DecidableEq, Repr

/-- Filter expression tree (filter.rs): attribute predicates with logical
combinators, evaluated by the record store. -/
inductive Filter where
  | Pres (attr : String)
  | Eq (attr : String) (v : Value)
  | And (subs : List Filter)
  | Or (subs : List Filter)
deriving Repr

mutual

/-- Whether an entry matches a filter (the record store's evaluation of
the filter contract in the spec). -/
def entryMatches : Filter → Entry → Bool
  | .Pres a, e => !(e.getAttr a).isEmpty
  | .Eq a v, e => (e.getAttr a).any (fun x => x == v)
  | .And fs, e => allMatch fs e
  | .Or fs, e => anyMatch fs e

def allMatch : List Filter → Entry → Bool
  | [], _ => true
  | f :: fs, e => entryMatches f e && allMatch fs e

def anyMatch : List Filter → Entry → Bool
  | [], _ => false
  | f :: fs, e => entryMatches f e || anyMatch fs e

end

/-- Modelled from the spec: `Entry::filter_from_attrs` (entry.rs is not in
src).  It builds a conjunction of equality predicates from the entry's own
values of the named attributes, and fails (None) when no such predicate
can be built — server.rs maps that None to `OperationError::FilterGeneration`. -/
def Entry.filter_from_attrs (e : Entry) (names : List String) : Option Filter :=
  let pairs := names.flatMap (fun a => (e.getAttr a).map (fun v => Filter.Eq a v))
  if pairs.isEmpty then none else some (Filter.And pairs)

/-- The schema store view (schema.rs is not in src; modelled from the
spec's Schema Store contract): entry validation, normalisation, the
result of whole-schema validation run at commit, and the set of
attribute names known to the schema. -/
structure Schema where
  validateEntry : Entry → Bool
  normaliseEntry : Entry → Entry
  validateOk : Bool
  knownAttrs : List String

/-- Schema write view (`SchemaWriteTransaction`): a working copy of the
schema, committed by publishing the copy. -/
structure SchemaWriteTransaction where
  content : Schema

def Schema.write (s : Schema) : SchemaWriteTransaction := ⟨s⟩

def SchemaWriteTransaction.commit (t : SchemaWriteTransaction) : Schema :=
  t.content

/-- Record store read transaction (`BackendTransaction`): a snapshot of
the committed entries. -/
structure BackendTransaction where
  entries : List Entry

/-- Record store write transaction (`BackendWriteTransaction`): the
working set of entries, initialised from the committed snapshot. -/
structure BackendWriteTransaction where
  entries : List Entry

/-- Modelled from the spec: the record store's search (be.rs is not in
src) — return every entry matching the filter. -/
def BackendTransaction.search (t : BackendTransaction) (f : Filter) :
    Except BackendError (List Entry) :=
  .ok (t.entries.filter (entryMatches f))

/-- Modelled from the spec: the record store's exists check. -/
def BackendTransaction.exists (t : BackendTransaction) (f : Filter) :
    Except BackendError Bool :=
  .ok (t.entries.any (entryMatches f))

/-- Modelled from the spec: search against a write transaction's working
set. -/
def BackendWriteTransaction.search (t : BackendWriteTransaction) (f : Filter) :
    Except BackendError (List Entry) :=
  .ok (t.entries.filter (entryMatches f))

/-- Modelled from the spec: exists against a write transaction's working
set. -/
def BackendWriteTransaction.exists (t : BackendWriteTransaction) (f : Filter) :
    Except BackendError Bool :=
  .ok (t.entries.any (entryMatches f))

/-- Modelled from the spec: the record store's create (be.rs is not in
src): an empty request is a `BackendError::EmptyRequest` (the one error
kind server.rs matches on); otherwise the entries join the working set. -/
def BackendWriteTransaction.create (t : BackendWriteTransaction)
    (entries : List Entry) : Except BackendError BackendWriteTransaction :=
  if entries.isEmpty then .error .EmptyRequest
  else .ok ⟨t.entries ++ entries⟩

/-- The query server (`QueryServer` in server.rs): the committed record
store and schema store it hands out transactional views over. -/
structure QueryServer where
  be : List Entry
  schema : Schema

/-- `QueryServerTransaction`: the read transaction composed of a record
store read transaction and a schema read view. -/
structure QueryServerTransaction where
  be_txn : BackendTransaction
  schema : Schema

/-- `QueryServer::read` (server.rs): open a read view over the committed
snapshot. -/
def QueryServer.read (qs : QueryServer) : QueryServerTransaction :=
  { be_txn := ⟨qs.be⟩, schema := qs.schema }

/-- `QueryServerWriteTransaction` (server.rs): committed flag, record
store write transaction and schema write view.  `curtime` is the
transaction's fixed current time, captured at `write` (the plugin file's
`qs.get_curtime()` accessor reads it). -/
structure QueryServerWriteTransaction where
  committed : Bool
  curtime : Nat
  be_txn : BackendWriteTransaction
  schema : SchemaWriteTransaction

/-- `QueryServer::write` (server.rs): open the exclusive write view; the
committed flag starts false.  The transaction's current time is supplied
by the caller (as in `server.write(curtime)` used by the plugin tests). -/
def QueryServer.write (qs : QueryServer) (curtime : Nat) :
    QueryServerWriteTransaction :=
  { committed := false
    curtime := curtime
    be_txn := ⟨qs.be⟩
    schema := qs.schema.write }

/-- `get_curtime` on the write transaction (read-only accessor used by
the session plugin). -/
def QueryServerWriteTransaction.get_curtime
    (qs : QueryServerWriteTransaction) : Nat :=
  qs.curtime

/-- A modify event (event.rs is not in src; modelled from the spec):
filter selecting the targets and the ordered modification list.  The
session plugin receives it but does not inspect it. -/
structure ModifyEvent where
  filterAttrHint : Option Filter

/-- A create event (`CreateEvent` in event.rs, as used by server.rs):
the raw entries plus the internal-identity marker. -/
structure CreateEvent where
  entries : List Entry
  internal : Bool

def CreateEvent.new_internal (entries : List Entry) : CreateEvent :=
  ⟨entries, true⟩

/-!
## The session consistency plugin (plugins/session.rs)

The source body of `SessionConsistency::pre_modify` is

    let _curtime = qs.get_curtime();
    Ok(())

with the candidate loop commented out: it reads the current time, never
touches the candidate vector or the server state, and returns `Ok(())`.
-/

namespace SessionConsistency

/-- `SessionConsistency::id` (plugins/session.rs). -/
def id : String := "plugin_session_consistency"

/-- `SessionConsistency::pre_modify` (plugins/session.rs), embedded with
explicit state passing: the result, the server write-transaction state
after the call, and the candidate vector after the call. -/
def pre_modify (qs : QueryServerWriteTransaction) (cand : List Entry)
    (_me : ModifyEvent) :
    Except OperationError Unit × QueryServerWriteTransaction × List Entry :=
  let _curtime := qs.get_curtime
  (Except.ok (), qs, cand)

end SessionConsistency

/-!
## Spec-side predicates for the plugin's stated obligations

These follow the spec's words, to be compared with what `pre_modify`
actually does.
-/

/-- A `Session` value whose expiry is set and `expiry <= current_time`
(the spec's expiry-sweep condition). -/
def Value.isExpiredSession (t : Nat) : Value → Bool
  | .Session _ s =>
    match s.expiry with
    | some exp => exp ≤ t
    | none => false
  | _ => false

/-- An `Oauth2Session` value whose expiry is set and
`expiry <= current_time`. -/
def Value.isExpiredOauth2Session (t : Nat) : Value → Bool
  | .Oauth2Session _ o =>
    match o.expiry with
    | some exp => exp ≤ t
    | none => false
  | _ => false

/-- Whether the entry still carries a `Session` or `Oauth2Session` value
whose set expiry is `<= t` — what the spec's expiry sweep must have
removed. -/
def Entry.hasExpiredSessionValue (e : Entry) (t : Nat) : Bool :=
  e.attrs.any (fun p =>
    p.2.any (fun v => v.isExpiredSession t || v.isExpiredOauth2Session t))

/-- The ids of the `Session` values present anywhere on the entry. -/
def Entry.sessionIds (e : Entry) : List Nat :=
  e.attrs.flatMap (fun p =>
    p.2.filterMap (fun v =>
      match v with
      | .Session id _ => some id
      | _ => none))

/-- Whether the entry carries an `Oauth2Session` value whose `parent`
matches no `Session` value's id on the entry (an orphan). -/
def Entry.hasOrphanOauth2Session (e : Entry) : Bool :=
  e.attrs.any (fun p =>
    p.2.any (fun v =>
      match v with
      | .Oauth2Session _ o => !(e.sessionIds.contains o.parent)
      | _ => false))

/-- Modelled from the spec: `GRACE_WINDOW`, the fixed process-wide grace
duration for an `Oauth2Session` lacking a matching parent (the constant's
defining module is not in src; 300 seconds stands in for the fixed
value — no claim depends on its magnitude). -/
def GRACE_WINDOW : Nat := 300

/-- Whether the entry carries an orphan `Oauth2Session` value that is past
the grace window at time `t` (`current_time - issued_at >= GRACE_WINDOW`),
which the spec's grace-window purge must have removed. -/
def Entry.hasGraceExpiredOrphan (e : Entry) (t : Nat) : Bool :=
  e.attrs.any (fun p =>
    p.2.any (fun v =>
      match v with
      | .Oauth2Session _ o =>
        !(e.sessionIds.contains o.parent) && GRACE_WINDOW ≤ t - o.issued_at
      | _ => false))

/-!
## The transaction engine (server.rs)
-/

/-- A search event (event.rs): the filter to run, already resolved. -/
structure SearchEvent where
  filter : Filter

/-- An exists event (event.rs). -/
structure ExistsEvent where
  filter : Filter

def ExistsEvent.new_internal (f : Filter) : ExistsEvent := ⟨f⟩

/-- `QueryServerReadTransaction::search` (server.rs): hand the event's
filter straight to the record store and map a store failure to
`OperationError::Backend`.  The filter-validation step is a TODO in the
source — nothing consults the schema. -/
def QueryServerTransaction.search (t : QueryServerTransaction)
    (se : SearchEvent) : Except OperationError (List Entry) :=
  (t.be_txn.search se.filter).mapError (fun _ => OperationError.Backend)

/-- `QueryServerReadTransaction::exists` (server.rs): hand the event's
filter to the record store's exists; map a store failure to `Backend`. -/
def QueryServerTransaction.exists (t : QueryServerTransaction)
    (ee : ExistsEvent) : Except OperationError Bool :=
  (t.be_txn.exists ee.filter).mapError (fun _ => OperationError.Backend)

mutual

/-- The attribute names a filter references (for stating the spec's
schema-unknown-attribute requirement on read operations). -/
def Filter.attrNames : Filter → List String
  | .Pres a => [a]
  | .Eq a _ => [a]
  | .And fs => attrNamesList fs
  | .Or fs => attrNamesList fs

def attrNamesList : List Filter → List String
  | [] => []
  | f :: fs => f.attrNames ++ attrNamesList fs

end

/-- Whether every attribute a filter references is known to the schema
(the spec's condition for a read to proceed). -/
def filterSchemaKnown (s : Schema) (f : Filter) : Bool :=
  f.attrNames.all (fun a => s.knownAttrs.contains a)

/-- The pre-create plugin pipeline, `Plugins::run_pre_create`
(plugins/mod.rs is not in src; modelled from the spec): an ordered set of
hooks with mutable access to the candidate vector that may rewrite it or
fail the operation.  server.rs's `create` is parametrised over it. -/
def PluginPipeline : Type :=
  List Entry → Except OperationError (List Entry)

/-- The schema-validation fold from `create` (server.rs): accumulate over
the candidates, keeping the first `SchemaViolation`. -/
def validateFold (f : Entry → Bool) (l : List Entry) :
    Except OperationError Unit :=
  l.foldl
    (fun acc e =>
      match acc with
      | .ok _ => if f e then .ok () else .error .SchemaViolation
      | .error e0 => .error e0)
    (.ok ())

/-- `QueryServerWriteTransaction::create` (server.rs): copy the event's
entries to candidates, run the pre-create plugins, fold schema validation
over the candidates (first failure is `SchemaViolation`), normalise, then
call the record store's create (its `EmptyRequest` mapped to
`OperationError::EmptyRequest`).  Every error path leaves the transaction
state unchanged. -/
def QueryServerWriteTransaction.create (txn : QueryServerWriteTransaction)
    (plugins : PluginPipeline) (ce : CreateEvent) :
    Except OperationError Unit × QueryServerWriteTransaction :=
  let candidates := ce.entries
  match plugins candidates with
  | .error e => (.error e, txn)
  | .ok candidates =>
    match validateFold txn.schema.content.validateEntry candidates with
    | .error e => (.error e, txn)
    | .ok _ =>
      let norm_cand := candidates.map txn.schema.content.normaliseEntry
      match txn.be_txn.create norm_cand with
      | .error BackendError.EmptyRequest => (.error .EmptyRequest, txn)
      | .ok be' => (.ok (), { txn with be_txn := be' })

/-- `internal_create` (server.rs): wrap the entries in an internal
`CreateEvent` and call `create`. -/
def QueryServerWriteTransaction.internal_create
    (txn : QueryServerWriteTransaction) (plugins : PluginPipeline)
    (entries : List Entry) :
    Except OperationError Unit × QueryServerWriteTransaction :=
  txn.create plugins (CreateEvent.new_internal entries)

/-- The trait's `exists` as implemented by the write transaction
(server.rs: `QueryServerReadTransaction for QueryServerWriteTransaction`
over the write transaction's record store view). -/
def QueryServerWriteTransaction.exists (txn : QueryServerWriteTransaction)
    (ee : ExistsEvent) : Except OperationError Bool :=
  (txn.be_txn.exists ee.filter).mapError (fun _ => OperationError.Backend)

/-- `internal_exists` on the write transaction (server.rs): build an
internal exists event and dispatch it through the trait's `exists`. -/
def QueryServerWriteTransaction.internal_exists
    (txn : QueryServerWriteTransaction) (f : Filter) :
    Except OperationError Bool :=
  txn.exists (ExistsEvent.new_internal f)

/-- `internal_assert_or_create` (server.rs): build a filter from the
entry's name/uuid attributes (None is `FilterGeneration`); if the entry
exists the ensure-content branch is `unimplemented!()` — a panic; if it
does not exist, create it. -/
def QueryServerWriteTransaction.internal_assert_or_create
    (txn : QueryServerWriteTransaction) (plugins : PluginPipeline)
    (e : Entry) : Except Failure Unit × QueryServerWriteTransaction :=
  match e.filter_from_attrs ["name", "uuid"] with
  | none => (.error (.err .FilterGeneration), txn)
  | some filt =>
    match txn.internal_exists filt with
    | .ok true => (.error .panic, txn)
    | .ok false =>
      match txn.internal_create plugins [e] with
      | (.ok _, txn') => (.ok (), txn')
      | (.error e0, txn') => (.error (.err e0), txn')
    | .error e0 => (.error (.err e0), txn)

/-- `internal_migrate_or_create` (server.rs): same shape as
`internal_assert_or_create` — the ensure-content branch on an existing
entry is likewise `unimplemented!()`. -/
def QueryServerWriteTransaction.internal_migrate_or_create
    (txn : QueryServerWriteTransaction) (plugins : PluginPipeline)
    (e : Entry) : Except Failure Unit × QueryServerWriteTransaction :=
  match e.filter_from_attrs ["name", "uuid"] with
  | none => (.error (.err .FilterGeneration), txn)
  | some filt =>
    match txn.internal_exists filt with
    | .ok true => (.error .panic, txn)
    | .ok false =>
      match txn.internal_create plugins [e] with
      | (.ok _, txn') => (.ok (), txn')
      | (.error e0, txn') => (.error (.err e0), txn')
    | .error e0 => (.error (.err e0), txn)

/-- Modelled from the spec: the `JSON_SYSTEM_INFO_V1` bootstrap entry
(constants.rs is not in src) — a static system-information object with
name and uuid attributes. -/
def systemInfoEntry : Entry :=
  { attrs := [("class", [.Class "object", .Class "system_info"]),
              ("name", [.Utf8 "system_info"]),
              ("uuid", [.Refer 1]),
              ("version", [.Utf8 "1"])] }

/-- Modelled from the spec: the `JSON_ANONYMOUS_V1` bootstrap entry
(constants.rs is not in src) — the anonymous account object. -/
def anonymousEntry : Entry :=
  { attrs := [("class", [.Class "object", .Class "account"]),
              ("name", [.Utf8 "anonymous"]),
              ("uuid", [.Refer 2])] }

/-- `initialise` (server.rs): assert-or-create the system-info entry,
then migrate-or-create the anonymous entry, propagating the first
failure. -/
def QueryServerWriteTransaction.initialise
    (txn : QueryServerWriteTransaction) (plugins : PluginPipeline) :
    Except Failure Unit × QueryServerWriteTransaction :=
  match txn.internal_assert_or_create plugins systemInfoEntry with
  | (.error e, txn') => (.error e, txn')
  | (.ok _, txn') =>
    match txn'.internal_migrate_or_create plugins anonymousEntry with
    | (.error e, txn'') => (.error e, txn'')
    | (.ok _, txn'') => (.ok (), txn'')

/-- The observable outcome of `commit` (server.rs returns
`Result<(), ()>`; a failed `assert!` is a panic, kept distinct). -/
inductive CommitOutcome where
  | panicked
  | err
  | committedOk
deriving DecidableEq, Repr

/-- The commit protocol's steps, recorded in execution order. -/
inductive CommitStep where
  | validate
  | beCommit
  | schemaCommit
deriving DecidableEq, Repr

/-- `QueryServerWriteTransaction::commit` (server.rs): destructure the
transaction, `assert!(!committed)`, schema-validate, and on success
commit the record store write transaction and then the schema write view.
The embedding returns the outcome, the server state after the call, and
the ordered list of protocol steps executed. -/
def QueryServerWriteTransaction.commit (txn : QueryServerWriteTransaction)
    (qs : QueryServer) : CommitOutcome × QueryServer × List CommitStep :=
  if txn.committed then (.panicked, qs, [])
  else if txn.schema.content.validateOk then
    (.committedOk,
     { be := txn.be_txn.entries, schema := txn.schema.commit },
     [.validate, .beCommit, .schemaCommit])
  else (.err, qs, [.validate])

/-!
## Concrete fixtures
-/

/-- A permissive schema fixture: every entry valid, normalisation is the
identity, whole-schema validation passes. -/
def schemaTrue : Schema :=
  { validateEntry := fun _ => true
    normaliseEntry := fun e => e
    validateOk := true
    knownAttrs := ["class", "name", "uuid", "description", "displayname",
                   "version", "user_auth_token_session", "oauth2_session"] }

/-- A schema fixture whose entry validation rejects everything. -/
def schemaRejectAll : Schema :=
  { validateEntry := fun _ => false
    normaliseEntry := fun e => e
    validateOk := true
    knownAttrs := ["class", "name", "uuid"] }

/-- A schema fixture whose whole-schema validation at commit fails. -/
def schemaValidateFails : Schema :=
  { validateEntry := fun _ => true
    normaliseEntry := fun e => e
    validateOk := false
    knownAttrs := ["class", "name", "uuid"] }

/-- The empty plugin pipeline: no hook rewrites or rejects. -/
def plugTriv : PluginPipeline := fun cands => .ok cands

/-- A pipeline whose first hook rejects the operation. -/
def plugReject : PluginPipeline := fun _ => .error OperationError.Plugin

/-- A modify event fixture (the plugin ignores its content). -/
def meNone : ModifyEvent := ⟨none⟩

/-- Server fixture: empty store, permissive schema. -/
def qsEmpty : QueryServer := { be := [], schema := schemaTrue }

/-- Server fixture whose schema fails whole-schema validation. -/
def qsBad : QueryServer := { be := [], schema := schemaValidateFails }

/-- Write transaction fixture at time 100 over the empty store. -/
def txnAt100 : QueryServerWriteTransaction := qsEmpty.write 100

/-- Write transaction fixture at time 300 (= `GRACE_WINDOW`). -/
def txnAt300 : QueryServerWriteTransaction := qsEmpty.write 300

/-- Write transaction fixture whose schema rejects every entry. -/
def txnReject : QueryServerWriteTransaction :=
  QueryServer.write { be := [], schema := schemaRejectAll } 100

/-- Candidate entry carrying a `Session` value with `expiry = Some 100`
(set, and `<= current_time` at time 100). -/
def expiredSessionEntry : Entry :=
  { attrs := [("user_auth_token_session",
      [.Session 7 { label := "label", expiry := some 100, issued_at := 40,
                    issued_by := .User 9, scope := .IdentityOnly }])] }

/-- Candidate entry carrying an `Oauth2Session` whose parent session
(id 5) is absent from the entry (it was removed by the modification). -/
def orphanOauth2Entry : Entry :=
  { attrs := [("oauth2_session",
      [.Oauth2Session 8 { parent := 5, expiry := none, issued_at := 100,
                          rs_uuid := 3 }])] }

/-- Candidate entry carrying an orphan `Oauth2Session` issued at time 0:
at time 300, `current_time - issued_at >= GRACE_WINDOW`. -/
def graceExpiredEntry : Entry :=
  { attrs := [("oauth2_session",
      [.Oauth2Session 8 { parent := 5, expiry := none, issued_at := 0,
                          rs_uuid := 3 }])] }

/-- A one-entry internal create event. -/
def ceOne : CreateEvent := CreateEvent.new_internal [anonymousEntry]

/-- An entry bearing an attribute the schema does not know. -/
def unknownAttrEntry : Entry := { attrs := [("zzz_secret", [.Utf8 "x"])] }

/-- Read transaction over a store holding `unknownAttrEntry`, with the
permissive schema (which does not know `zzz_secret`). -/
def readUnknown : QueryServerTransaction :=
  QueryServer.read { be := [unknownAttrEntry], schema := schemaTrue }

/-- First `initialise` run in a fresh write transaction over the empty
store. -/
def initRun1 : Except Failure Unit × QueryServerWriteTransaction :=
  (qsEmpty.write 0).initialise plugTriv

/-- The server state after the first `initialise` run commits. -/
def qsAfterInit : QueryServer := ((initRun1.2).commit qsEmpty).2.1

/-!
## Helper lemmas
-/

theorem foldl_validateStep_error (f : Entry → Bool) (l : List Entry)
    (e0 : OperationError) :
    l.foldl
      (fun acc e =>
        match acc with
        | .ok _ => if f e then .ok () else .error .SchemaViolation
        | .error e1 => .error e1)
      (Except.error e0) = .error e0 := by
  induction l with
  | nil => rfl
  | cons x xs ih => simpa [List.foldl_cons] using ih

theorem validateFold_mem_false (f : Entry → Bool) (l : List Entry)
    (c : Entry) (hc : c ∈ l) (hf : f c = false) :
    validateFold f l = .error .SchemaViolation := by
  induction l with
  | nil => cases hc
  | cons x xs ih =>
    rw [validateFold, List.foldl_cons]
    by_cases hx : f x = true
    · have hstep :
          (match (Except.ok () : Except OperationError Unit) with
           | .ok _ => if f x then Except.ok () else .error .SchemaViolation
           | .error e1 => .error e1) = Except.ok () := by
        simp [hx]
      rw [hstep]
      rcases List.mem_cons.mp hc with h | h
      · subst h
        rw [hx] at hf
        cases hf
      · exact ih h
    · have hx' : f x = false := by simpa using hx
      have hstep :
          (match (Except.ok () : Except OperationError Unit) with
           | .ok _ => if f x then Except.ok () else .error .SchemaViolation
           | .error e1 => .error e1) =
            Except.error OperationError.SchemaViolation := by
        simp [hx']
      rw [hstep, foldl_validateStep_error]

/-!
## Claim theorems
-/

/-- C1: the claim says `pre_modify` removes every `Session` and
`Oauth2Session` value whose set expiry is `<= current_time`.  The source
body is a stub (it reads the current time and returns `Ok(())` with the
candidate loop commented out), so at a candidate whose `Session` value
has `expiry = Some 100` and `current_time = 100` the expired value
survives the pass — contradicting the claim, the plugin's own module doc
and its test `test_session_consistency_expire_old_sessions`. -/
theorem c1_expiry_sweep_not_performed :
    SessionConsistency.pre_modify txnAt100 [expiredSessionEntry] meNone =
      (Except.ok (), txnAt100, [expiredSessionEntry]) ∧
    expiredSessionEntry.hasExpiredSessionValue txnAt100.get_curtime = true :=
  ⟨rfl, by decide⟩

/-- C2: the claim says every `Oauth2Session` whose parent `Session` was
removed (or is otherwise absent) is removed in the same `pre_modify`
pass.  The stub leaves an `Oauth2Session` whose parent (id 5) is absent
from the entry untouched — contradicting the claim, the module doc and
the test `test_session_consistency_oauth2_removed_by_parent`. -/
theorem c2_parent_cascade_not_performed :
    SessionConsistency.pre_modify txnAt100 [orphanOauth2Entry] meNone =
      (Except.ok (), txnAt100, [orphanOauth2Entry]) ∧
    orphanOauth2Entry.hasOrphanOauth2Session = true :=
  ⟨rfl, by decide⟩

/-- C3: the claim says an `Oauth2Session` with no matching parent is
removed once `current_time - issued_at >= GRACE_WINDOW`.  The stub leaves
such a value (issued at 0, current time 300 = `GRACE_WINDOW`)
untouched — contradicting the claim and the test
`test_session_consistency_oauth2_grace_window_past`. -/
theorem c3_grace_purge_not_performed :
    SessionConsistency.pre_modify txnAt300 [graceExpiredEntry] meNone =
      (Except.ok (), txnAt300, [graceExpiredEntry]) ∧
    graceExpiredEntry.hasGraceExpiredOrphan txnAt300.get_curtime = true :=
  ⟨rfl, by decide⟩

/-- C4: `commit` on an uncommitted transaction first schema-validates; on
failure the result is an error, the server state is unchanged (the record
store write transaction is dropped, not committed) and only the validate
step ran; on success the record store commit happens and the schema
store commit happens strictly after it, as the ordered step trace
records. -/
theorem c4_commit_protocol_order (txn : QueryServerWriteTransaction)
    (qs : QueryServer) (h : txn.committed = false) :
    (txn.schema.content.validateOk = false →
      txn.commit qs = (.err, qs, [.validate])) ∧
    (txn.schema.content.validateOk = true →
      txn.commit qs =
        (.committedOk,
         { be := txn.be_txn.entries, schema := txn.schema.commit },
         [.validate, .beCommit, .schemaCommit])) := by
  constructor <;> intro hv <;>
    simp [QueryServerWriteTransaction.commit, h, hv]

/-- C4 witness: the successful branch at a concrete passing transaction
and the aborting branch at a concrete failing one. -/
theorem c4_commit_protocol_order_witness :
    ((qsEmpty.write 0).commit qsEmpty).2.2 =
      [CommitStep.validate, CommitStep.beCommit, CommitStep.schemaCommit] ∧
    (qsBad.write 0).commit qsBad = (.err, qsBad, [.validate]) := by
  have h1 := (c4_commit_protocol_order (qsEmpty.write 0) qsEmpty rfl).2 rfl
  have h2 := (c4_commit_protocol_order (qsBad.write 0) qsBad rfl).1 rfl
  exact ⟨by rw [h1], h2⟩

/-- C5: if the pre-create plugin pipeline returns an error, `create`
returns that same error with the transaction state (and so the record
store working set) unchanged; likewise if any candidate fails schema
validation, `create` returns `SchemaViolation` with the state
unchanged — the record store's create step is never reached. -/
theorem c5_create_aborts_on_failure (txn : QueryServerWriteTransaction)
    (plugins : PluginPipeline) (ce : CreateEvent) :
    (∀ e0 : OperationError, plugins ce.entries = .error e0 →
      txn.create plugins ce = (.error e0, txn)) ∧
    (∀ cands : List Entry, plugins ce.entries = .ok cands →
      (∃ c ∈ cands, txn.schema.content.validateEntry c = false) →
      txn.create plugins ce = (.error .SchemaViolation, txn)) := by
  constructor
  · intro e0 h
    simp [QueryServerWriteTransaction.create, h]
  · rintro cands h ⟨c, hc, hf⟩
    have hv := validateFold_mem_false txn.schema.content.validateEntry cands c hc hf
    simp [QueryServerWriteTransaction.create, h, hv]

/-- C5 witness: a rejecting pipeline and a rejecting schema, each at a
concrete one-entry create event, leave the transaction unchanged with the
corresponding error. -/
theorem c5_create_aborts_on_failure_witness :
    txnAt100.create plugReject ceOne = (.error OperationError.Plugin, txnAt100) ∧
    txnReject.create plugTriv ceOne =
      (.error OperationError.SchemaViolation, txnReject) := by
  constructor
  · exact (c5_create_aborts_on_failure txnAt100 plugReject ceOne).1
      OperationError.Plugin rfl
  · exact (c5_create_aborts_on_failure txnReject plugTriv ceOne).2
      [anonymousEntry] rfl ⟨anonymousEntry, by simp, rfl⟩

/-- C6: the claim says `search`/`exists` fail on a filter referencing an
attribute unknown to the schema, with no backend scan.  The source's
filter validation is a TODO: at a concrete filter over the unknown
attribute `zzz_secret`, the scan is performed and both operations return
Ok results — contradicting the claim and the source's own comment calling
the check an important security step. -/
theorem c6_search_scans_schema_unknown_attr :
    filterSchemaKnown readUnknown.schema (Filter.Pres "zzz_secret") = false ∧
    readUnknown.search ⟨Filter.Pres "zzz_secret"⟩ = .ok [unknownAttrEntry] ∧
    readUnknown.exists ⟨Filter.Pres "zzz_secret"⟩ = .ok true :=
  ⟨by decide, rfl, rfl⟩

/-- C7: the claim says repeated `initialise` runs always succeed and
converge.  In the source, a rerun finds the bootstrap entry already
present and `internal_assert_or_create`'s exists-branch is
`unimplemented!()` — a panic.  Concretely: the first run over the empty
store succeeds and commits, and the second run over the committed state
panics, leaving its transaction state untouched — contradicting the
source's own comment (`This function is idempotent`) and its test
`test_qs_init_idempotent_1`. -/
theorem c7_initialise_rerun_panics :
    initRun1.1 = .ok () ∧
    ((initRun1.2).commit qsEmpty).1 = CommitOutcome.committedOk ∧
    ((qsAfterInit.write 0).initialise plugTriv).1 = .error Failure.panic ∧
    ((qsAfterInit.write 0).initialise plugTriv).2.be_txn.entries =
      qsAfterInit.be :=
  ⟨rfl, rfl, rfl, rfl⟩

/-- C8: every transaction produced by `write` has `committed = false`,
and committing such a transaction takes the validate branch — the outcome
is `committedOk` or `err` according to schema validation, never the
`assert!(!committed)` panic. -/
theorem c8_write_commit_flag (qs : QueryServer) (t : Nat) (st : QueryServer) :
    (qs.write t).committed = false ∧
    ((qs.write t).commit st).1 =
      (if qs.schema.validateOk then CommitOutcome.committedOk
       else CommitOutcome.err) := by
  constructor
  · rfl
  · by_cases h : qs.schema.validateOk <;>
      simp [QueryServer.write, Schema.write,
            QueryServerWriteTransaction.commit, h]

/-- C9: for every server state, candidate vector and modify event, the
session-consistency `pre_modify` hook returns `Ok(())` and leaves the
server write-transaction state untouched (its only read is
`get_curtime`). -/
theorem c9_pre_modify_never_fails (qs : QueryServerWriteTransaction)
    (cand : List Entry) (me : ModifyEvent) :
    SessionConsistency.pre_modify qs cand me = (Except.ok (), qs, cand) :=
  rfl

/-- C10: for every input, the candidate vector `pre_modify` hands back is
exactly the one it was given — no entry added, removed or changed. -/
theorem c10_pre_modify_frame (qs : QueryServerWriteTransaction)
    (cand : List Entry) (me : ModifyEvent) :
    (SessionConsistency.pre_modify qs cand me).2.2 = cand :=
  rfl

end Kanidm
